import Mathlib

/-!
Shallow embedding of the Story-Mode-AI pipeline (Angular/TypeScript):

* `src/src/models/story.model.ts`   — the data model (`VideoSegment`,
  `GeneratedClip`, `Progress`, `Character`);
* `src/src/services/gemini.service.ts` — `GeminiService` with
  `transcribeAndSegmentAudio` and `generateVideoClip` (duration clamp,
  start request, backoff/deadline polling loop, download);
* the root component — `AppComponent` with `generateStory`,
  `playStory`, `handleVideoEnded`, `startOver`, `addCharacter`,
  `progressPercentage`.

External effects (the Gemini network calls, the wall clock, `setTimeout`,
`fetch`, media elements) are modelled by explicit oracles / state fields;
every function of the source becomes a pure Lean function over those.
Times and JS numbers are modelled as rationals.
-/

namespace StoryMode

/-- A browser `File`: opaque binary payload with a name and mime type.
The payload is abstracted to a `String` (only passed through, never inspected). -/
structure BFile where
  name : String
  mimeType : String
  content : String
  deriving Repr, DecidableEq

/-- Embedding of `VideoSegment` from `story.model.ts`: `{topicSummary, videoPrompt,
characterId?, startTime, endTime}`; times in seconds (JS numbers → ℚ). -/
structure VideoSegment where
  topicSummary : String
  videoPrompt : String
  characterId : Option String
  startTime : ℚ
  endTime : ℚ
  deriving Repr, DecidableEq

/-- Embedding of `GeneratedClip` from `story.model.ts`: `{segment, blobUrl}`. -/
structure GeneratedClip where
  segment : VideoSegment
  blobUrl : String
  deriving Repr, DecidableEq

/-- Embedding of `Progress` from `story.model.ts`: `{stage, total, current, message}`. -/
structure Progress where
  stage : String
  total : ℚ
  current : ℚ
  message : String
  deriving Repr, DecidableEq

/-- Embedding of `Character` from `story.model.ts`: `{id, name, description, photoUrl,
photoFile}` (photoFile is `File | null`). -/
structure Character where
  id : String
  name : String
  description : String
  photoUrl : String
  photoFile : Option BFile
  deriving Repr, DecidableEq

/-- Embedding of the component union type AppState: idle, processing, complete, error. -/
inductive AppState
  | idle
  | processing
  | complete
  | error
  deriving Repr, DecidableEq

/-- Embedding of the `progressPercentage` computed signal (app component):
`if (p.total === 0) return 0; return (p.current / p.total) * 100;`. -/
def progressPercentage (p : Progress) : ℚ :=
  if p.total = 0 then 0 else (p.current / p.total) * 100

/-- JS `Math.round` on a rational: round half toward positive infinity,
`Math.round(x) = ⌊x + 0.5⌋`. -/
def jsRound (q : ℚ) : ℤ := ⌊q + 1/2⌋

/-- Embedding of `gemini.service.ts` line 117: `const duration = Math.round(segment.endTime - segment.startTime)`. -/
def rawDuration (segment : VideoSegment) : ℤ :=
  jsRound (segment.endTime - segment.startTime)

/-- Embedding of `gemini.service.ts` line 118: `const clipDuration = Math.max(5, Math.min(8, duration))`. -/
def clipDuration (segment : VideoSegment) : ℤ :=
  max 5 (min 8 (rawDuration segment))

/-- The reference-image part built from a character photo
(`imageBytes` from `fileToBase64`, plus the mime type). -/
structure ImagePart where
  imageBytes : String
  mimeType : String
  deriving Repr, DecidableEq

/-- The start request `generateVideoClip` submits to `ai.models.generateVideos`
(model, prompt, optional image, and the fixed config of lines 122-132). -/
structure StartRequest where
  model : String
  prompt : String
  image : Option ImagePart
  numberOfVideos : ℕ
  aspectRatio : String
  durationSeconds : ℤ
  personGeneration : String
  deriving Repr, DecidableEq

/-- Builds the start request exactly as `generateVideoClip` does
(lines 108-132): optional image part from the photo, fixed model /
aspect ratio / person-generation mode, clamped duration. -/
def startRequest (segment : VideoSegment) (characterPhoto : Option BFile) : StartRequest :=
  { model := "veo-2.0-generate-001"
    prompt := segment.videoPrompt
    image := characterPhoto.map (fun f => ⟨f.content, f.mimeType⟩)
    numberOfVideos := 1
    aspectRatio := "16:9"
    durationSeconds := clipDuration segment
    personGeneration := "ALLOW_ALL" }

/-- The wait (ms) slept before the n-th poll of the polling loop:
`let wait = 5000` initially, then `wait = Math.min(wait * 1.5, 15000)`
after each sleep (lines 139 and 147). -/
def waitSeq : ℕ → ℚ
  | 0 => 5000
  | n + 1 => min (waitSeq n * (3/2)) 15000

/-- The long-running operation handle returned by `generateVideos` /
`getVideosOperation`: `done` flag, optional `error.message`, and the
result URI `response?.generatedVideos?.[0]?.video?.uri` flattened to
an `Option`. -/
structure Operation where
  done : Bool
  error : Option String
  uri : Option String
  deriving Repr, DecidableEq

deriving instance DecidableEq for Except

/-- One observed poll round-trip: how long the
`ai.operations.getVideosOperation` call took (ms) and what it returned
(`.error msg` models the call rejecting). -/
structure PollStep where
  duration : ℚ
  result : Except String Operation
  deriving Repr, DecidableEq

/-- Outcome of the `while (!operation.done)` loop of `generateVideoClip`. -/
inductive PollOutcome
  | completed (op : Operation)
  | timedOut
  | pollFailed (msg : String)
  | exhausted
  deriving Repr, DecidableEq

/-- Result of a polling-loop run: its outcome, the number of
`getVideosOperation` calls issued, and the sleeps performed (in order). -/
structure PollRun where
  outcome : PollOutcome
  polls : ℕ
  waits : List ℚ
  deriving Repr, DecidableEq

/-- The polling loop of `generateVideoClip` (lines 142-156):

```
while (!operation.done) {
  if (Date.now() > deadline) throw Error(timed out after 10 minutes);
  await new Promise(resolve => setTimeout(resolve, wait));
  wait = Math.min(wait * 1.5, 15000);
  operation = await ai.operations.getVideosOperation({ operation });   // may throw
}
```

`clock` is the current `Date.now()`; each iteration advances it by the
sleep plus the observed poll duration. `steps` is the oracle of poll
round-trips; running out of oracle (`.exhausted`) models an execution
still inside the loop (the `await` of a poll that has not resolved in
the observed trace). -/
def pollLoop (deadline : ℚ) : ℚ → ℚ → Operation → List PollStep → PollRun
  | clock, wait, op, steps =>
    if op.done then ⟨.completed op, 0, []⟩
    else if clock > deadline then ⟨.timedOut, 0, []⟩
    else
      match steps with
      | [] => ⟨.exhausted, 0, []⟩
      | step :: rest =>
        match step.result with
        | .error msg => ⟨.pollFailed msg, 1, [wait]⟩
        | .ok op2 =>
          let r := pollLoop deadline (clock + wait + step.duration)
            (min (wait * (3/2)) 15000) op2 rest
          ⟨r.outcome, r.polls + 1, wait :: r.waits⟩

/-- The `fetch(downloadLink&key=...)` outcome: the fetch itself rejecting
(network error), or an HTTP response with its `ok` flag, `statusText`,
and (when the body is read) the blob URL `URL.createObjectURL` yields. -/
inductive DownloadResult
  | netError (msg : String)
  | httpResponse (ok : Bool) (statusText : String) (blobUrl : String)
  deriving Repr, DecidableEq

/-- Result of a `generateVideoClip` call: resolves with a blob URL,
rejects with an error message, or (`.pending`) has not resolved within
the observed trace (the poll oracle ran out while the loop was active). -/
inductive GenResult
  | ok (blobUrl : String)
  | err (msg : String)
  | pending
  deriving Repr, DecidableEq

/-- Everything the environment feeds one `generateVideoClip` call:
`t0` = `Date.now()` when the deadline is computed (line 140),
`start` = outcome of `ai.models.generateVideos`, `polls` = the observed
poll round-trips, `download` = the final fetch outcome. -/
structure GenOracle where
  t0 : ℚ
  start : Except String Operation
  polls : List PollStep
  download : DownloadResult
  deriving Repr, DecidableEq

/-- An observed `generateVideoClip` run: its result, the start request it
submitted (`none` when it failed before building one), the total number
of network attempts made (start call + polls + download fetch), and the
sleeps of its polling loop. -/
structure GenRun where
  result : GenResult
  request : Option StartRequest
  attempts : ℕ
  waits : List ℚ
  deriving Repr, DecidableEq

/-- Embedding of `GeminiService.generateVideoClip` (lines 101-179), over the oracle:

1. reads the credential; absence throws
   the missing-key message before any network call;
2. builds the optional image part and the clamped-duration start request,
   submits it (`GenerationStartFailed` wraps a rejection);
3. runs the deadline/backoff polling loop (`deadline = Date.now() + 10*60*1000`,
   initial `wait = 5000`);
4. on completion surfaces `operation.error`, a missing download URI, and
   download failures, each with its distinct wrapped message;
   note the non-`ok` response throw happens inside the same `try`, so it
   is re-wrapped by the catch block as a downloading-video failure. -/
def generateVideoClip (apiKey : Option String) (segment : VideoSegment)
    (characterPhoto : Option BFile) (o : GenOracle) : GenRun :=
  match apiKey with
  | none =>
    ⟨.err "API Key is not available. Ensure the API_KEY environment variable is set.",
      none, 0, []⟩
  | some _ =>
    let req := startRequest segment characterPhoto
    match o.start with
    | .error e => ⟨.err ("Failed to start video generation: " ++ e), some req, 1, []⟩
    | .ok op0 =>
      let deadline := o.t0 + 10 * 60 * 1000
      let r := pollLoop deadline o.t0 5000 op0 o.polls
      match r.outcome with
      | .timedOut =>
        ⟨.err "Video generation timed out after 10 minutes.", some req, 1 + r.polls, r.waits⟩
      | .pollFailed e =>
        ⟨.err ("Polling for video failed: " ++ e), some req, 1 + r.polls, r.waits⟩
      | .exhausted => ⟨.pending, some req, 1 + r.polls, r.waits⟩
      | .completed op =>
        match op.error with
        | some m =>
          ⟨.err ("Video generation failed: " ++ m), some req, 1 + r.polls, r.waits⟩
        | none =>
          match op.uri with
          | none =>
            ⟨.err "Video generation succeeded, but no download link was returned.",
              some req, 1 + r.polls, r.waits⟩
          | some _ =>
            match o.download with
            | .netError e =>
              ⟨.err ("Downloading video failed: " ++ e), some req, 2 + r.polls, r.waits⟩
            | .httpResponse ok statusText blobUrl =>
              if ok then ⟨.ok blobUrl, some req, 2 + r.polls, r.waits⟩
              else
                ⟨.err ("Downloading video failed: Failed to download video: " ++ statusText),
                  some req, 2 + r.polls, r.waits⟩

/-- What the environment feeds one `transcribeAndSegmentAudio` call: the
outcome of the single `ai.models.generateContent` round-trip, after JSON
decoding (`.error` covers rejection, malformed JSON, and schema failure). -/
structure TranscribeOracle where
  response : Except String (List VideoSegment)
  deriving Repr, DecidableEq

/-- An observed `transcribeAndSegmentAudio` run: its result and the number
of network attempts made. -/
structure TranscribeRun where
  result : Except String (List VideoSegment)
  attempts : ℕ
  deriving Repr, DecidableEq

/-- Embedding of `GeminiService.transcribeAndSegmentAudio` (lines 25-99), over the
oracle. The source constructs the client with whatever
`process.env.API_KEY` holds — it performs NO credential presence check —
and unconditionally issues the `generateContent` request; any failure is
re-thrown with the failed-to-analyze-audio prefix. -/
def transcribeAndSegmentAudio (apiKey : Option String) (audioFile : BFile)
    (storyContext : String) (characters : List Character)
    (o : TranscribeOracle) : TranscribeRun :=
  let _ := apiKey      -- passed to the client constructor unchecked
  let _ := audioFile
  let _ := storyContext
  let _ := characters
  match o.response with
  | .ok segments => ⟨.ok segments, 1⟩
  | .error e => ⟨.error ("Failed to analyze audio: " ++ e), 1⟩

/-- Observable state of the AppComponent: its signals (`status` ...
`currentClipIndex`, `progress`), the media elements it drives
(`videoPlayer` / `audioPlayer`, collapsed into the `playersAvailable`
guard plus the element state the component writes), the count of
`videoPlayer.src` assignments, and the log of `URL.revokeObjectURL`
calls issued (the component issues none; the field records that). -/
structure World where
  status : AppState
  audioFile : Option BFile
  audioUrl : Option String
  characters : List Character
  storyContext : String
  generatedClips : List GeneratedClip
  errorMsg : String
  progress : Progress
  currentClipIndex : ℕ
  playersAvailable : Bool
  videoSrc : String
  videoPlaying : Bool
  audioPlaying : Bool
  audioCurrentTime : ℚ
  videoSrcSets : ℕ
  revokedUrls : List String
  deriving Repr, DecidableEq

/-- The blank character profile `addCharacter` appends:
empty name, description and photo URL, no photo file, and an id built
from the prefix char_ followed by the current timestamp.
`now` is the `Date.now()` timestamp. -/
def blankCharacter (now : ℕ) : Character :=
  { id := "char_" ++ toString now
    name := ""
    description := ""
    photoUrl := ""
    photoFile := none }

/-- Embedding of `AppComponent.addCharacter` (lines 76-81). -/
def addCharacter (w : World) (now : ℕ) : World :=
  { w with characters := w.characters ++ [blankCharacter now] }

/-- Embedding of `AppComponent.startOver` (lines 163-173): resets the signals to their
idle values, then calls `addCharacter()`. The body contains no
`URL.revokeObjectURL` call, so `revokedUrls` is untouched; it also does
not touch `currentClipIndex`, `progress`, or the media elements. -/
def startOver (w : World) (now : ℕ) : World :=
  addCharacter
    { w with
      status := .idle
      audioFile := none
      audioUrl := none
      storyContext := ""
      characters := []
      generatedClips := []
      errorMsg := "" }
    now

/-- The `currentClipUrl` computed signal:
the blob URL of the clip at the current index, or the empty string. -/
def currentClipUrl (w : World) : String :=
  ((w.generatedClips[w.currentClipIndex]?).map GeneratedClip.blobUrl).getD ""

/-- Embedding of `AppComponent.playStory` (lines 140-149): guarded on the player
elements and a non-empty clip list; resets the clip index to 0, points
the video element at the blob URL of clip 0, rewinds the audio to 0 and
starts both elements. -/
def playStory (w : World) : World :=
  if ¬ w.playersAvailable ∨ w.generatedClips.length = 0 then w
  else
    let w1 := { w with currentClipIndex := 0 }
    { w1 with
      videoSrc := currentClipUrl w1
      videoSrcSets := w1.videoSrcSets + 1
      audioCurrentTime := 0
      audioPlaying := true
      videoPlaying := true }

/-- Embedding of `AppComponent.handleVideoEnded` (lines 151-161): advances to the next
clip when one exists (swapping the video source and resuming video
playback, audio untouched); otherwise pauses the audio. -/
def handleVideoEnded (w : World) : World :=
  let nextIndex := w.currentClipIndex + 1
  if nextIndex < w.generatedClips.length then
    let w1 := { w with currentClipIndex := nextIndex }
    { w1 with
      videoSrc := currentClipUrl w1
      videoSrcSets := w1.videoSrcSets + 1
      videoPlaying := true }
  else
    { w with audioPlaying := false }

/-- The photo passed to the Generator for a segment (line 122-123):
`this.characters().find(c => c.id === segment.characterId)?.photoFile ?? null`. -/
def photoFor (chars : List Character) (segment : VideoSegment) : Option BFile :=
  match segment.characterId with
  | none => none
  | some cid => (chars.find? (fun c => c.id == cid)).bind Character.photoFile

/-- Observable events of the per-segment generation loop: the i-th
Generator invocation (with its arguments) and its resolution. An
`invoked` not followed by its `resolved` models an `await` still
pending at the end of the observed trace. -/
inductive GenEvent
  | invoked (i : ℕ) (segment : VideoSegment) (photo : Option BFile)
  | resolved (i : ℕ) (result : GenResult)
  deriving Repr, DecidableEq

/-- Result of the `for` loop of `generateStory` (lines 118-126): the
accumulated clips, the error that aborted it (if any), the final
`progress` value, the event trace, and whether the loop is still
suspended on an unresolved `await`. -/
structure LoopResult where
  clips : List GeneratedClip
  errorMsg : Option String
  progress : Progress
  events : List GenEvent
  stuck : Bool
  deriving Repr, DecidableEq

/-- The per-iteration progress message of line 120. -/
def clipProgressMsg (i total : ℕ) (segment : VideoSegment) : String :=
  "Generating clip " ++ toString (i + 1) ++ "/" ++ toString total ++ ": "
    ++ segment.topicSummary

/-- The `for` loop of `generateStory`: for each remaining segment, update
progress, look up the character photo, `await generateVideoClip`, and
append the clip. The generator is abstracted to `gen : call index →
segment → photo → GenRun`; a `.err` run models the thrown rejection that
the surrounding `try` converts into the error state, and `.pending`
models an `await` that never resolves (the loop issues no further
invocation in either case). -/
def storyLoop (gen : ℕ → VideoSegment → Option BFile → GenRun)
    (chars : List Character) (total : ℕ) :
    List VideoSegment → ℕ → List GeneratedClip → Progress → LoopResult
  | [], _, clips, p => ⟨clips, none, p, [], false⟩
  | segment :: rest, i, clips, p =>
    let p1 : Progress := { p with current := i, message := clipProgressMsg i total segment }
    let photo := photoFor chars segment
    let run := gen i segment photo
    match run.result with
    | .pending => ⟨clips, none, p1, [.invoked i segment photo], true⟩
    | .err m =>
      ⟨clips, some m, p1, [.invoked i segment photo, .resolved i (.err m)], false⟩
    | .ok url =>
      let r := storyLoop gen chars total rest (i + 1) (clips ++ [⟨segment, url⟩]) p1
      ⟨r.clips, r.errorMsg, r.progress,
        .invoked i segment photo :: .resolved i (.ok url) :: r.events, r.stuck⟩

/-- Embedding of `AppComponent.generateStory` (lines 104-138) over the service oracles
(`apiKey` = `process.env.API_KEY`, `tOrc` for the Segmenter call, `gOrc i`
for the i-th Generator call). Returns the component state and the
Generator event trace. Faithful to the source: no-op without an audio
file; clears clips/error and enters `processing`; one Segmenter call;
the sequential per-segment loop; `complete` only after every segment
succeeded; any thrown failure is caught once, storing the message and
entering `error`. (The mirroring of the progress signal of the service
into the component via the constructor `effect` is abstracted away; only
the progress writes in the body of `generateStory` are modelled.) -/
def generateStory (apiKey : Option String) (tOrc : TranscribeOracle)
    (gOrc : ℕ → GenOracle) (w : World) : World × List GenEvent :=
  match w.audioFile with
  | none => (w, [])
  | some audio =>
    let w1 := { w with status := .processing, generatedClips := [], errorMsg := "" }
    let t := transcribeAndSegmentAudio apiKey audio w1.storyContext w1.characters tOrc
    match t.result with
    | .error m =>
      ({ w1 with
          errorMsg := m
          status := .error
          progress := { w1.progress with stage := "Error", message := m } }, [])
    | .ok segments =>
      let p0 : Progress :=
        ⟨"Generating clips", segments.length, 0, "Starting video generation..."⟩
      let w2 := { w1 with progress := p0 }
      let r := storyLoop (fun i s photo => generateVideoClip apiKey s photo (gOrc i))
        w2.characters segments.length segments 0 [] p0
      match r.errorMsg with
      | some m =>
        ({ w2 with
            generatedClips := r.clips
            errorMsg := m
            status := .error
            progress := { r.progress with stage := "Error", message := m } }, r.events)
      | none =>
        if r.stuck then
          ({ w2 with generatedClips := r.clips, progress := r.progress }, r.events)
        else
          ({ w2 with
              generatedClips := r.clips
              status := .complete
              progress :=
                ⟨"Finished", segments.length, segments.length, "All clips generated!"⟩ },
            r.events)

/-- Concrete audio file used by the closed witness / counterexample runs. -/
def audio0 : BFile := ⟨"story.mp3", "audio/mpeg", "audio-bytes"⟩

/-- Concrete segment used by the closed witness / counterexample runs. -/
def seg0 : VideoSegment := ⟨"Intro", "A sunrise over rolling hills", none, 0, 6⟩

/-- Second concrete segment used by the closed witness runs. -/
def seg1 : VideoSegment := ⟨"Chase", "A fox running through a forest", none, 6, 13⟩

/-- Concrete generated clip used by the closed witness runs. -/
def clip0 : GeneratedClip := ⟨seg0, "blob:clip0"⟩

/-- Concrete idle component state holding an audio file, used by witnesses. -/
def wInit : World :=
  { status := .idle
    audioFile := some audio0
    audioUrl := some "blob:audio"
    characters := []
    storyContext := ""
    generatedClips := []
    errorMsg := ""
    progress := ⟨"Starting", 1, 0, ""⟩
    currentClipIndex := 0
    playersAvailable := true
    videoSrc := ""
    videoPlaying := false
    audioPlaying := false
    audioCurrentTime := 0
    videoSrcSets := 0
    revokedUrls := [] }

/-- Oracle for a Generator call that succeeds immediately (operation done
on return, download succeeds with blob URL blob:0). -/
def oracleOK : GenOracle :=
  ⟨0, .ok ⟨true, none, some "uri0"⟩, [], .httpResponse true "OK" "blob:0"⟩

/-- Oracle for a Generator call whose download responds with HTTP 404. -/
def oracleFail : GenOracle :=
  ⟨0, .ok ⟨true, none, some "uri1"⟩, [], .httpResponse false "Not Found" ""⟩

/-- Expected clip list for an all-success run: the clip at offset j pairs
the j-th segment with the URL of the (i+j)-th Generator call. -/
def expectedClips (urls : ℕ → String) : ℕ → List VideoSegment → List GeneratedClip
  | _, [] => []
  | i, segment :: rest => ⟨segment, urls i⟩ :: expectedClips urls (i + 1) rest

/-- Expected Generator event trace for an all-success run: invocation i is
immediately followed by its resolution before invocation i+1 appears —
the strictly sequential schedule. -/
def expectedEvents (chars : List Character) (urls : ℕ → String) :
    ℕ → List VideoSegment → List GenEvent
  | _, [] => []
  | i, segment :: rest =>
    .invoked i segment (photoFor chars segment) :: .resolved i (.ok (urls i)) ::
      expectedEvents chars urls (i + 1) rest

/-- Oracle for a Generator call whose single poll round-trip lands past the
10-minute deadline (the job never reports done). -/
def oracleTimeout : GenOracle :=
  ⟨0, .ok ⟨false, none, none⟩, [⟨700000, .ok ⟨false, none, none⟩⟩], .netError "x"⟩

/-- Concrete completed pipeline state (one generated clip, nothing revoked)
used to exhibit the reset behaviour on blob handles. -/
def wComplete : World :=
  { wInit with status := .complete, generatedClips := [clip0] }

/- ===================== theorems ===================== -/

/-- Helper: a string with a non-empty left part is non-empty. -/
lemma append_ne_empty_left (s t : String) (h : s.length ≠ 0) : s ++ t ≠ "" := by
  intro hc
  have hl : (s ++ t).length = 0 := by rw [hc]; rfl
  rw [String.length_append] at hl
  omega

/-- Helper: every rejection message `generateVideoClip` can produce is
non-empty (each is a non-empty literal or carries a non-empty prefix). -/
lemma generateVideoClip_err_ne_empty (apiKey : Option String) (segment : VideoSegment)
    (characterPhoto : Option BFile) (o : GenOracle) (m : String) :
    (generateVideoClip apiKey segment characterPhoto o).result = .err m → m ≠ "" := by
  unfold generateVideoClip
  rcases apiKey with _ | key
  · intro h
    have h2 : GenResult.err
        "API Key is not available. Ensure the API_KEY environment variable is set."
        = .err m := h
    cases h2
    decide
  · rcases o with ⟨t0, start, polls, download⟩
    rcases start with e | op0
    · intro h
      have h2 : GenResult.err ("Failed to start video generation: " ++ e) = .err m := h
      cases h2
      exact append_ne_empty_left _ _ (by decide)
    · dsimp only
      rcases h : (pollLoop (t0 + 10 * 60 * 1000) t0 5000 op0 polls).outcome with
        ⟨d, operror, opuri⟩ | _ | e | _
      · rcases operror with _ | e
        · rcases opuri with _ | u
          · intro h2
            have h3 : GenResult.err
                "Video generation succeeded, but no download link was returned."
                = .err m := h2
            cases h3
            decide
          · rcases download with e | ⟨ok, st, b⟩
            · intro h2
              have h3 : GenResult.err ("Downloading video failed: " ++ e) = .err m := h2
              cases h3
              exact append_ne_empty_left _ _ (by decide)
            · cases ok
              · intro h2
                have h3 : GenResult.err
                    ("Downloading video failed: Failed to download video: " ++ st)
                    = .err m := h2
                cases h3
                exact append_ne_empty_left _ _ (by decide)
              · intro h2
                exact absurd (show GenResult.ok b = .err m from h2) (by simp)
        · intro h2
          have h3 : GenResult.err ("Video generation failed: " ++ e) = .err m := h2
          cases h3
          exact append_ne_empty_left _ _ (by decide)
      · intro h2
        have h3 : GenResult.err "Video generation timed out after 10 minutes."
            = .err m := h2
        cases h3
        decide
      · intro h2
        have h3 : GenResult.err ("Polling for video failed: " ++ e) = .err m := h2
        cases h3
        exact append_ne_empty_left _ _ (by decide)
      · intro h2
        exact absurd (show GenResult.pending = .err m from h2) (by simp)

/-- Claim C10: the derived progress percentage never divides by zero — a
zero total yields 0, and a non-zero total yields the true ratio times
100 (stated multiplicatively to avoid appeal to any division-by-zero
convention). -/
theorem progressPercentage_total_zero_safe (p : Progress) :
    (p.total = 0 → progressPercentage p = 0) ∧
    (p.total ≠ 0 → progressPercentage p = (p.current / p.total) * 100 ∧
      progressPercentage p * p.total = p.current * 100) := by
  constructor
  · intro h
    simp [progressPercentage, h]
  · intro h
    refine ⟨by simp [progressPercentage, h], ?_⟩
    simp only [progressPercentage, if_neg h]
    field_simp

/-- Claim C10 witness: an empty segment list (total = 0) yields 0%, and a
quarter-done run yields 25%. -/
theorem progressPercentage_total_zero_safe_witness :
    progressPercentage ⟨"Generating clips", 0, 3, ""⟩ = 0 ∧
    progressPercentage ⟨"Generating clips", 4, 1, ""⟩ = 25 := by
  constructor
  · exact (progressPercentage_total_zero_safe ⟨"Generating clips", 0, 3, ""⟩).1 rfl
  · have h := (progressPercentage_total_zero_safe ⟨"Generating clips", 4, 1, ""⟩).2
      (by norm_num)
    rw [h.1]
    norm_num

/-- Claim C5: for every segment and photo, the duration `generateVideoClip`
places in the video-synthesis start request is
`clamp(round(endTime - startTime), 5, 8)` (both clamp spellings agree),
it always lies in [5, 8] — whatever the real difference, including
negative, zero, and large values — and every keyed `generateVideoClip`
run submits exactly that request. -/
theorem clipDuration_clamped (segment : VideoSegment) (characterPhoto : Option BFile) :
    (startRequest segment characterPhoto).durationSeconds
      = max 5 (min 8 (jsRound (segment.endTime - segment.startTime))) ∧
    (startRequest segment characterPhoto).durationSeconds
      = min 8 (max 5 (jsRound (segment.endTime - segment.startTime))) ∧
    5 ≤ (startRequest segment characterPhoto).durationSeconds ∧
    (startRequest segment characterPhoto).durationSeconds ≤ 8 ∧
    ∀ (key : String) (o : GenOracle),
      (generateVideoClip (some key) segment characterPhoto o).request
        = some (startRequest segment characterPhoto) := by
  refine ⟨rfl, ?_, ?_, ?_, ?_⟩
  · show max 5 (min 8 (rawDuration segment)) = _
    unfold rawDuration
    omega
  · show (5 : ℤ) ≤ max 5 (min 8 (rawDuration segment))
    omega
  · show max 5 (min 8 (rawDuration segment)) ≤ 8
    omega
  · intro key o
    unfold generateVideoClip
    rcases o with ⟨t0, start, polls, download⟩
    rcases start with e | op0
    · rfl
    · dsimp only
      rcases h : (pollLoop (t0 + 10 * 60 * 1000) t0 5000 op0 polls).outcome with
        ⟨d, operror, opuri⟩ | _ | m | _
      · rcases operror with _ | m
        · rcases opuri with _ | u
          · rfl
          · rcases download with m | ⟨ok, st, b⟩
            · rfl
            · cases ok <;> rfl
        · rfl
      · rfl
      · rfl
      · rfl

/-- Helper: the sleeps a polling-loop run performs, started with wait
`waitSeq k`, are successive values of `waitSeq` from index `k` on. -/
lemma pollLoop_waits_eq (deadline : ℚ) :
    ∀ (steps : List PollStep) (clock : ℚ) (op : Operation) (k : ℕ),
      (pollLoop deadline clock (waitSeq k) op steps).waits
        = (List.range (pollLoop deadline clock (waitSeq k) op steps).waits.length).map
            (fun j => waitSeq (k + j)) := by
  intro steps
  induction steps with
  | nil =>
    intro clock op k
    simp only [pollLoop]
    by_cases hd : op.done
    · simp [hd]
    · by_cases hc : clock > deadline <;> simp [hd, hc]
  | cons step rest ih =>
    intro clock op k
    by_cases hd : op.done
    · simp [pollLoop, hd]
    · by_cases hc : clock > deadline
      · simp [pollLoop, hd, hc]
      · rcases hres : step.result with e | op2
        · simp [pollLoop, hd, hc, hres]
          rw [show List.range 1 = [0] from rfl]
          simp
        · have hw : min (waitSeq k * (3/2)) 15000 = waitSeq (k + 1) := rfl
          simp only [pollLoop, hd, hc, hres, Bool.false_eq_true, if_false,
            gt_iff_lt, ite_false]
          rw [hw, ih (clock + waitSeq k + step.duration) op2 (k + 1)]
          simp only [List.length_cons, List.length_map, List.length_range,
            List.range_succ_eq_map, List.map_cons, List.map_map]
          congr 1
          apply List.map_congr_left
          intro j _
          simp only [Function.comp_apply]
          congr 1
          omega

/-- Helper: every wait of every `generateVideoClip` run is a prefix of the
`waitSeq` schedule (the polling loop starts at `wait = 5000 = waitSeq 0`). -/
lemma generateVideoClip_waits_eq (apiKey : Option String) (segment : VideoSegment)
    (characterPhoto : Option BFile) (o : GenOracle) :
    (generateVideoClip apiKey segment characterPhoto o).waits
      = (List.range (generateVideoClip apiKey segment characterPhoto o).waits.length).map
          waitSeq := by
  have base : ∀ deadline clock op steps,
      (pollLoop deadline clock 5000 op steps).waits
        = (List.range (pollLoop deadline clock 5000 op steps).waits.length).map waitSeq := by
    intro deadline clock op steps
    have h := pollLoop_waits_eq deadline steps clock op 0
    simpa using h
  unfold generateVideoClip
  rcases apiKey with _ | key
  · rfl
  · rcases o with ⟨t0, start, polls, download⟩
    rcases start with e | op0
    · rfl
    · dsimp only
      rcases h : (pollLoop (t0 + 10 * 60 * 1000) t0 5000 op0 polls).outcome with
        ⟨d, operror, opuri⟩ | _ | m | _
      · rcases operror with _ | m
        · rcases opuri with _ | u
          · exact base _ _ _ _
          · rcases download with m | ⟨ok, st, b⟩
            · exact base _ _ _ _
            · cases ok <;> exact base _ _ _ _
        · exact base _ _ _ _
      · exact base _ _ _ _
      · exact base _ _ _ _
      · exact base _ _ _ _

/-- Claim C3: the polling backoff of `generateVideoClip` starts at 5000 ms,
multiplies by 1.5 after each sleep and caps at 15000 ms, giving the wait
schedule 5000, 7500, 11250, 15000, 15000, …; no wait ever exceeds
15000 ms, from the fourth wait on every wait is exactly 15000 ms, and
the waits of any `generateVideoClip` run follow exactly this schedule. -/
theorem backoff_wait_schedule :
    waitSeq 0 = 5000 ∧
    (∀ n, waitSeq (n + 1) = min (waitSeq n * (3/2)) 15000) ∧
    waitSeq 1 = 7500 ∧ waitSeq 2 = 11250 ∧ waitSeq 3 = 15000 ∧ waitSeq 4 = 15000 ∧
    (∀ n, waitSeq n ≤ 15000) ∧
    (∀ n, waitSeq (n + 3) = 15000) ∧
    (∀ apiKey segment characterPhoto o,
      (generateVideoClip apiKey segment characterPhoto o).waits
        = (List.range
            (generateVideoClip apiKey segment characterPhoto o).waits.length).map
            waitSeq) := by
  have h3 : waitSeq 3 = 15000 := by
    show min (min (min (5000 * (3/2) : ℚ) 15000 * (3/2)) 15000 * (3/2)) 15000 = 15000
    norm_num
  have hcap : ∀ n, waitSeq (n + 3) = 15000 := by
    intro n
    induction n with
    | zero => exact h3
    | succ m ihm =>
      show min (waitSeq (m + 3) * (3/2)) 15000 = 15000
      rw [ihm]
      norm_num
  refine ⟨rfl, fun n => rfl, ?_, ?_, h3, hcap 1, ?_, hcap, ?_⟩
  · show min (5000 * (3/2) : ℚ) 15000 = 7500
    norm_num
  · show min (min (5000 * (3/2) : ℚ) 15000 * (3/2)) 15000 = 11250
    norm_num
  · intro n
    induction n with
    | zero => norm_num [waitSeq]
    | succ m _ =>
      show min (waitSeq m * (3/2)) 15000 ≤ 15000
      exact min_le_right _ _
  · exact generateVideoClip_waits_eq

/-- Helper: at any iteration head with the job not done and the clock past
the deadline, the loop raises the timeout at once: no further poll, no
further sleep. -/
lemma pollLoop_past_deadline (deadline clock wait : ℚ) (op : Operation)
    (steps : List PollStep) (hdone : op.done = false) (hc : clock > deadline) :
    pollLoop deadline clock wait op steps = ⟨.timedOut, 0, []⟩ := by
  cases steps <;> simp [pollLoop, hdone, hc]

/-- Helper: minimum wait of the schedule — every wait stays at least 5000 ms. -/
lemma wait_ge_5000 (wait : ℚ) (h : 5000 ≤ wait) :
    (5000 : ℚ) ≤ min (wait * (3/2)) 15000 := by
  rcases min_cases (wait * (3/2)) (15000 : ℚ) with ⟨heq, _⟩ | ⟨heq, _⟩ <;>
    rw [heq] <;> linarith

/-- Helper: if every poll comes back promptly but never done, the loop still
times out once the remaining step budget cannot outlast the deadline. -/
lemma pollLoop_never_done_times_out (deadline : ℚ) :
    ∀ (steps : List PollStep) (clock wait : ℚ) (op : Operation),
      op.done = false → 5000 ≤ wait →
      (∀ step ∈ steps, 0 ≤ step.duration ∧
        ∃ op2, step.result = .ok op2 ∧ op2.done = false) →
      deadline - clock < (steps.length : ℚ) * 5000 →
      (pollLoop deadline clock wait op steps).outcome = .timedOut := by
  intro steps
  induction steps with
  | nil =>
    intro clock wait op hdone _ _ hbudget
    have hc : clock > deadline := by
      simp only [List.length_nil, Nat.cast_zero, zero_mul] at hbudget
      linarith
    rw [pollLoop_past_deadline deadline clock wait op [] hdone hc]
  | cons step rest ih =>
    intro clock wait op hdone hwait hsteps hbudget
    by_cases hc : clock > deadline
    · rw [pollLoop_past_deadline deadline clock wait op (step :: rest) hdone hc]
    · obtain ⟨hdur, op2, hres, hdone2⟩ := hsteps step (List.mem_cons_self step rest)
      simp only [pollLoop, hdone, hc, hres, Bool.false_eq_true, if_false, gt_iff_lt,
        ite_false]
      apply ih (clock + wait + step.duration) (min (wait * (3/2)) 15000) op2 hdone2
        (wait_ge_5000 wait hwait)
      · intro s hs
        exact hsteps s (List.mem_cons_of_mem step hs)
      · simp only [List.length_cons, Nat.cast_add, Nat.cast_one] at hbudget ⊢
        have : (rest.length : ℚ) * 5000 = ((rest.length : ℚ) + 1) * 5000 - 5000 := by ring
        linarith

/-- Claim C4: `generateVideoClip` raises the 10-minute timeout. First: at any
loop iteration where the job is not done and the wall clock is past the
deadline, the loop raises the timeout immediately, performing no further
poll and no further sleep. Second: even when every poll resolves
(quickly, with any non-negative durations) but never reports done, the
loop times out as soon as the step budget cannot outlast the deadline.
Third: whenever the loop of a keyed `generateVideoClip` run times out,
the call rejects with exactly the timeout message, and its network
attempts are the start call plus the polls made before the raise — no
poll or download after it. -/
theorem generateVideoClip_times_out :
    (∀ deadline clock wait op steps, op.done = false → clock > deadline →
      pollLoop deadline clock wait op steps = ⟨.timedOut, 0, []⟩) ∧
    (∀ deadline clock wait op steps, op.done = false → 5000 ≤ wait →
      (∀ step ∈ steps, 0 ≤ step.duration ∧
        ∃ op2, step.result = .ok op2 ∧ op2.done = false) →
      deadline - clock < (steps.length : ℚ) * 5000 →
      (pollLoop deadline clock wait op steps).outcome = .timedOut) ∧
    (∀ (key : String) segment characterPhoto (o : GenOracle) op0,
      o.start = .ok op0 →
      (pollLoop (o.t0 + 10 * 60 * 1000) o.t0 5000 op0 o.polls).outcome = .timedOut →
      (generateVideoClip (some key) segment characterPhoto o).result
          = .err "Video generation timed out after 10 minutes." ∧
      (generateVideoClip (some key) segment characterPhoto o).attempts
          = 1 + (pollLoop (o.t0 + 10 * 60 * 1000) o.t0 5000 op0 o.polls).polls) := by
  refine ⟨pollLoop_past_deadline, fun deadline clock wait op steps h1 h2 h3 h4 =>
    pollLoop_never_done_times_out deadline steps clock wait op h1 h2 h3 h4, ?_⟩
  intro key segment characterPhoto o op0 hstart htimed
  rcases o with ⟨t0, start, polls, download⟩
  simp only at hstart htimed
  subst hstart
  unfold generateVideoClip
  dsimp only
  rw [htimed]
  exact ⟨rfl, rfl⟩

/-- Helper: fully evaluated polling loop of the `oracleTimeout` run — one
poll, one 5000 ms sleep, then the timeout raise at the second loop head. -/
lemma pollLoop_oracleTimeout :
    pollLoop ((0 : ℚ) + 10 * 60 * 1000) 0 5000 ⟨false, none, none⟩
      [⟨700000, .ok ⟨false, none, none⟩⟩] = ⟨.timedOut, 1, [5000]⟩ := by
  have hinner := pollLoop_past_deadline (600000 : ℚ) 705000 7500
    ⟨false, none, none⟩ [] rfl (by norm_num)
  rw [pollLoop]
  norm_num [hinner]

/-- Claim C4 witness: three concrete timeout runs. A loop entered with the
clock one past the deadline raises at once with zero polls; a prompt
never-done poll stream times out once the budget is exhausted; and a
full `generateVideoClip` run whose single poll lands past the deadline
rejects with the timeout message after exactly two network attempts. -/
theorem generateVideoClip_times_out_witness :
    pollLoop 0 1 5000 ⟨false, none, none⟩ [] = ⟨.timedOut, 0, []⟩ ∧
    (pollLoop 4999 0 5000 ⟨false, none, none⟩
      [⟨0, .ok ⟨false, none, none⟩⟩]).outcome = .timedOut ∧
    ((generateVideoClip (some "k") seg0 none oracleTimeout).result
        = .err "Video generation timed out after 10 minutes." ∧
      (generateVideoClip (some "k") seg0 none oracleTimeout).attempts = 2) := by
  refine ⟨generateVideoClip_times_out.1 0 1 5000 ⟨false, none, none⟩ [] rfl (by norm_num),
    generateVideoClip_times_out.2.1 4999 0 5000 ⟨false, none, none⟩
      [⟨0, .ok ⟨false, none, none⟩⟩] rfl (by norm_num) ?_ (by norm_num), ?_⟩
  · intro step hstep
    rw [List.mem_singleton] at hstep
    subst hstep
    exact ⟨le_refl 0, ⟨false, none, none⟩, rfl, rfl⟩
  · have htimed : (pollLoop (oracleTimeout.t0 + 10 * 60 * 1000) oracleTimeout.t0 5000
        ⟨false, none, none⟩ oracleTimeout.polls).outcome = .timedOut := by
      show (pollLoop ((0 : ℚ) + 10 * 60 * 1000) 0 5000 ⟨false, none, none⟩
        [⟨700000, .ok ⟨false, none, none⟩⟩]).outcome = .timedOut
      rw [pollLoop_oracleTimeout]
    have h := generateVideoClip_times_out.2.2 "k" seg0 none oracleTimeout
      ⟨false, none, none⟩ rfl htimed
    refine ⟨h.1, ?_⟩
    rw [h.2]
    show 1 + (pollLoop ((0 : ℚ) + 10 * 60 * 1000) 0 5000 ⟨false, none, none⟩
      [⟨700000, .ok ⟨false, none, none⟩⟩]).polls = 2
    rw [pollLoop_oracleTimeout]
    rfl

/-- Claim C6 counterexample: with the credential absent,
`transcribeAndSegmentAudio` does NOT fail fast before a network attempt —
it issues its `generateContent` request anyway (one network attempt, not
zero), and the reported failure is the wrapped network error, not a
missing-credential report. The claim asserts both operations fail fast;
this run refutes it for `transcribeAndSegmentAudio`. -/
theorem transcribe_no_credential_check :
    (transcribeAndSegmentAudio none audio0 "" [] ⟨.error "network unreachable"⟩).attempts
        = 1 ∧
    ¬ (transcribeAndSegmentAudio none audio0 "" [] ⟨.error "network unreachable"⟩).attempts
        = 0 ∧
    (transcribeAndSegmentAudio none audio0 "" [] ⟨.error "network unreachable"⟩).result
        = .error "Failed to analyze audio: network unreachable" := by
  refine ⟨rfl, ?_, rfl⟩
  intro h
  simp [transcribeAndSegmentAudio] at h

/-- Claim C6 as amended: only `generateVideoClip` fails fast on a missing
credential — it rejects with the missing-key message having made zero
network attempts — while `transcribeAndSegmentAudio` performs no
credential check and issues its single network request regardless of
whether the credential is present. -/
theorem credential_check_amended :
    (∀ segment characterPhoto o,
      generateVideoClip none segment characterPhoto o
        = ⟨.err "API Key is not available. Ensure the API_KEY environment variable is set.",
            none, 0, []⟩) ∧
    (∀ apiKey audioFile storyContext characters o,
      (transcribeAndSegmentAudio apiKey audioFile storyContext characters o).attempts
        = 1) := by
  refine ⟨fun segment characterPhoto o => rfl, ?_⟩
  intro apiKey audioFile storyContext characters o
  rcases o with ⟨r⟩
  cases r <;> rfl

/-- Claim C7: `startOver` returns the component to `idle` with an empty clip
list, the roster replaced by exactly one blank character (empty name,
description and photo), no audio asset, empty context, and an empty
error message — stated as a full record identity, which also exhibits
every field `startOver` leaves untouched. -/
theorem startOver_resets (w : World) (now : ℕ) :
    startOver w now
      = { w with
          status := .idle
          audioFile := none
          audioUrl := none
          storyContext := ""
          characters := [blankCharacter now]
          generatedClips := []
          errorMsg := "" } ∧
    blankCharacter now
      = { id := "char_" ++ toString now, name := "", description := "",
          photoUrl := "", photoFile := none } := by
  exact ⟨rfl, rfl⟩

/-- Claim C8: the reset action releases no blob handle at all — `startOver`
never calls `URL.revokeObjectURL`, so its revocation log is unchanged
from any state; in particular, resetting a completed run holding
`clip0` discards the clip from the list while leaving its blob handle
`blob:clip0` unreleased (the spec requires it to be revoked). -/
theorem startOver_revokes_nothing :
    (∀ w now, (startOver w now).revokedUrls = w.revokedUrls) ∧
    wComplete.generatedClips = [clip0] ∧
    wComplete.revokedUrls = [] ∧
    (startOver wComplete 1700000000000).generatedClips = [] ∧
    (startOver wComplete 1700000000000).revokedUrls = [] := by
  exact ⟨fun w now => rfl, rfl, rfl, rfl, rfl⟩

/-- Claim C9: with exactly three clips, `playStory` starts at index 0 with
clip 0 as video source; the first two `handleVideoEnded` calls advance
the index 0→1→2, each setting the video source to the clip at the new
index and resuming video playback while leaving the audio untouched;
the third call pauses the audio, keeps the index at 2, and does not set
a fourth video source (the source-assignment count stays at three). -/
theorem playback_three_clips (c0 c1 c2 : GeneratedClip) (w0 : World) :
    (playStory { w0 with playersAvailable := true, generatedClips := [c0, c1, c2] }
        ).currentClipIndex = 0 ∧
    (playStory { w0 with playersAvailable := true, generatedClips := [c0, c1, c2] }
        ).videoSrc = c0.blobUrl ∧
    (playStory { w0 with playersAvailable := true, generatedClips := [c0, c1, c2] }
        ).audioPlaying = true ∧
    (playStory { w0 with playersAvailable := true, generatedClips := [c0, c1, c2] }
        ).audioCurrentTime = 0 ∧
    (playStory { w0 with playersAvailable := true, generatedClips := [c0, c1, c2] }
        ).videoSrcSets = w0.videoSrcSets + 1 ∧
    (handleVideoEnded (playStory
        { w0 with playersAvailable := true, generatedClips := [c0, c1, c2] })
        ).currentClipIndex = 1 ∧
    (handleVideoEnded (playStory
        { w0 with playersAvailable := true, generatedClips := [c0, c1, c2] })
        ).videoSrc = c1.blobUrl ∧
    (handleVideoEnded (playStory
        { w0 with playersAvailable := true, generatedClips := [c0, c1, c2] })
        ).videoPlaying = true ∧
    (handleVideoEnded (playStory
        { w0 with playersAvailable := true, generatedClips := [c0, c1, c2] })
        ).audioPlaying = true ∧
    (handleVideoEnded (playStory
        { w0 with playersAvailable := true, generatedClips := [c0, c1, c2] })
        ).audioCurrentTime = 0 ∧
    (handleVideoEnded (playStory
        { w0 with playersAvailable := true, generatedClips := [c0, c1, c2] })
        ).videoSrcSets = w0.videoSrcSets + 2 ∧
    (handleVideoEnded (handleVideoEnded (playStory
        { w0 with playersAvailable := true, generatedClips := [c0, c1, c2] }))
        ).currentClipIndex = 2 ∧
    (handleVideoEnded (handleVideoEnded (playStory
        { w0 with playersAvailable := true, generatedClips := [c0, c1, c2] }))
        ).videoSrc = c2.blobUrl ∧
    (handleVideoEnded (handleVideoEnded (playStory
        { w0 with playersAvailable := true, generatedClips := [c0, c1, c2] }))
        ).videoPlaying = true ∧
    (handleVideoEnded (handleVideoEnded (playStory
        { w0 with playersAvailable := true, generatedClips := [c0, c1, c2] }))
        ).audioPlaying = true ∧
    (handleVideoEnded (handleVideoEnded (playStory
        { w0 with playersAvailable := true, generatedClips := [c0, c1, c2] }))
        ).audioCurrentTime = 0 ∧
    (handleVideoEnded (handleVideoEnded (playStory
        { w0 with playersAvailable := true, generatedClips := [c0, c1, c2] }))
        ).videoSrcSets = w0.videoSrcSets + 3 ∧
    (handleVideoEnded (handleVideoEnded (handleVideoEnded (playStory
        { w0 with playersAvailable := true, generatedClips := [c0, c1, c2] })))
        ).audioPlaying = false ∧
    (handleVideoEnded (handleVideoEnded (handleVideoEnded (playStory
        { w0 with playersAvailable := true, generatedClips := [c0, c1, c2] })))
        ).currentClipIndex = 2 ∧
    (handleVideoEnded (handleVideoEnded (handleVideoEnded (playStory
        { w0 with playersAvailable := true, generatedClips := [c0, c1, c2] })))
        ).videoSrc = c2.blobUrl ∧
    (handleVideoEnded (handleVideoEnded (handleVideoEnded (playStory
        { w0 with playersAvailable := true, generatedClips := [c0, c1, c2] })))
        ).videoSrcSets = w0.videoSrcSets + 3 := by
  simp [playStory, handleVideoEnded, currentClipUrl]

/-- Helper: when every remaining Generator call succeeds, the loop appends
one clip per segment in order, never errors, never sticks, and emits the
strictly alternating invoked/resolved trace. -/
lemma storyLoop_all_ok (gen : ℕ → VideoSegment → Option BFile → GenRun)
    (chars : List Character) (total : ℕ) (urls : ℕ → String) :
    ∀ (segs : List VideoSegment) (i : ℕ) (clips : List GeneratedClip) (p : Progress),
      (∀ j (h : j < segs.length),
        (gen (i + j) (segs.get ⟨j, h⟩) (photoFor chars (segs.get ⟨j, h⟩))).result
          = .ok (urls (i + j))) →
      (storyLoop gen chars total segs i clips p).clips
          = clips ++ expectedClips urls i segs ∧
      (storyLoop gen chars total segs i clips p).errorMsg = none ∧
      (storyLoop gen chars total segs i clips p).stuck = false ∧
      (storyLoop gen chars total segs i clips p).events = expectedEvents chars urls i segs := by
  intro segs
  induction segs with
  | nil =>
    intro i clips p _
    exact ⟨by simp [storyLoop, expectedClips], rfl, rfl, rfl⟩
  | cons segment rest ih =>
    intro i clips p hok
    have h0 : (gen i segment (photoFor chars segment)).result = .ok (urls i) := by
      have h := hok 0 (by simp)
      simpa using h
    have hshift : ∀ j (h : j < rest.length),
        (gen (i + 1 + j) (rest.get ⟨j, h⟩) (photoFor chars (rest.get ⟨j, h⟩))).result
          = .ok (urls (i + 1 + j)) := by
      intro j h
      have hm := hok (j + 1) (by simpa using Nat.succ_lt_succ h)
      have heq : i + (j + 1) = i + 1 + j := by omega
      rw [heq] at hm
      simpa using hm
    obtain ⟨ihc, ihe, ihs, ihev⟩ := ih (i + 1) (clips ++ [⟨segment, urls i⟩])
      { p with current := i, message := clipProgressMsg i total segment } hshift
    refine ⟨?_, ?_, ?_, ?_⟩ <;>
      simp only [storyLoop, h0, expectedClips, expectedEvents] <;>
      simp [ihc, ihe, ihs, ihev, expectedClips, expectedEvents]

/-- Helper: when the first k Generator calls succeed and the k-th (0-based)
fails, the loop stops with exactly the k clips accumulated so far and
the failing message, without sticking. -/
lemma storyLoop_fails_at (gen : ℕ → VideoSegment → Option BFile → GenRun)
    (chars : List Character) (total : ℕ) (urls : ℕ → String) (m : String) :
    ∀ (segs : List VideoSegment) (k : ℕ) (i : ℕ) (clips : List GeneratedClip)
      (p : Progress) (hk : k < segs.length),
      (∀ j (h : j < k),
        (gen (i + j) (segs.get ⟨j, Nat.lt_trans h hk⟩)
          (photoFor chars (segs.get ⟨j, Nat.lt_trans h hk⟩))).result
          = .ok (urls (i + j))) →
      ((gen (i + k) (segs.get ⟨k, hk⟩)
          (photoFor chars (segs.get ⟨k, hk⟩))).result = .err m) →
      (storyLoop gen chars total segs i clips p).clips
          = clips ++ expectedClips urls i (segs.take k) ∧
      (storyLoop gen chars total segs i clips p).errorMsg = some m ∧
      (storyLoop gen chars total segs i clips p).stuck = false := by
  intro segs
  induction segs with
  | nil =>
    intro k i clips p hk
    exact absurd hk (by simp)
  | cons segment rest ih =>
    intro k i clips p hk hok herr
    cases k with
    | zero =>
      have h0 : (gen i segment (photoFor chars segment)).result = .err m := by
        simpa using herr
      refine ⟨?_, ?_, ?_⟩ <;>
        simp [storyLoop, h0, expectedClips]
    | succ k2 =>
      have h0 : (gen i segment (photoFor chars segment)).result
          = .ok (urls i) := by
        have h := hok 0 (Nat.succ_pos k2)
        simpa using h
      have hk2 : k2 < rest.length := by simpa using Nat.lt_of_succ_lt_succ hk
      have hshift : ∀ j (h : j < k2),
          (gen (i + 1 + j) (rest.get ⟨j, Nat.lt_trans h hk2⟩)
            (photoFor chars (rest.get ⟨j, Nat.lt_trans h hk2⟩))).result
            = .ok (urls (i + 1 + j)) := by
        intro j h
        have hm := hok (j + 1) (Nat.succ_lt_succ h)
        have heq : i + (j + 1) = i + 1 + j := by omega
        rw [heq] at hm
        simpa using hm
      have herr2 : (gen (i + 1 + k2) (rest.get ⟨k2, hk2⟩)
          (photoFor chars (rest.get ⟨k2, hk2⟩))).result = .err m := by
        have heq : i + (k2 + 1) = i + 1 + k2 := by omega
        rw [heq] at herr
        simpa using herr
      obtain ⟨ihc, ihe, ihs⟩ := ih k2 (i + 1) (clips ++ [⟨segment, urls i⟩])
        { p with current := i, message := clipProgressMsg i total segment } hk2
        hshift herr2
      refine ⟨?_, ?_, ?_⟩ <;>
        simp only [storyLoop, h0, List.take_succ_cons, expectedClips] <;>
        simp [ihc, ihe, ihs]

/-- Helper: the expected clip list has one clip per segment. -/
lemma expectedClips_length (urls : ℕ → String) :
    ∀ (segs : List VideoSegment) (i : ℕ),
      (expectedClips urls i segs).length = segs.length
  | [], _ => rfl
  | _ :: rest, i => by
    simp [expectedClips, expectedClips_length urls rest (i + 1)]

/-- Claim C1: for every non-empty segment list the Segmenter returns, an
all-success `generateStory` run invokes the Generator exactly once per
segment, in segment order and strictly sequentially — the event trace is
exactly invocation 0, its resolution, invocation 1, its resolution, … —
and the accumulated clip list pairs the i-th segment with the i-th
result, with length N, ending in `complete`. -/
theorem generateStory_all_success
    (apiKey : Option String) (tOrc : TranscribeOracle) (gOrc : ℕ → GenOracle)
    (w : World) (audio : BFile) (segments : List VideoSegment) (urls : ℕ → String)
    (haudio : w.audioFile = some audio)
    (hseg : tOrc.response = .ok segments)
    (hne : segments ≠ [])
    (hok : ∀ i (h : i < segments.length),
      (generateVideoClip apiKey (segments.get ⟨i, h⟩)
        (photoFor w.characters (segments.get ⟨i, h⟩)) (gOrc i)).result
        = .ok (urls i)) :
    (generateStory apiKey tOrc gOrc w).1.status = .complete ∧
    (generateStory apiKey tOrc gOrc w).1.generatedClips
        = expectedClips urls 0 segments ∧
    (generateStory apiKey tOrc gOrc w).1.generatedClips.length = segments.length ∧
    (generateStory apiKey tOrc gOrc w).2
        = expectedEvents w.characters urls 0 segments := by
  have hok0 : ∀ j (h : j < segments.length),
      ((fun i s photo => generateVideoClip apiKey s photo (gOrc i)) (0 + j)
        (segments.get ⟨j, h⟩)
        (photoFor w.characters (segments.get ⟨j, h⟩))).result
        = .ok (urls (0 + j)) := by
    intro j h
    simpa using hok j h
  obtain ⟨hc, he, hs, hev⟩ := storyLoop_all_ok
    (fun i s photo => generateVideoClip apiKey s photo (gOrc i)) w.characters
    segments.length urls segments 0 []
    ⟨"Generating clips", segments.length, 0, "Starting video generation..."⟩ hok0
  refine ⟨?_, ?_, ?_, ?_⟩ <;>
    simp [generateStory, haudio, transcribeAndSegmentAudio, hseg, hc, he, hs, hev,
      expectedClips_length]

/-- Claim C1 witness: a concrete two-segment all-success run — status
`complete`, two clips pairing each segment with its blob URL, and the
strictly alternating invoked/resolved trace. -/
theorem generateStory_all_success_witness :
    (generateStory (some "k") ⟨.ok [seg0, seg1]⟩ (fun _ => oracleOK) wInit).1.status
        = .complete ∧
    (generateStory (some "k") ⟨.ok [seg0, seg1]⟩ (fun _ => oracleOK) wInit
        ).1.generatedClips = expectedClips (fun _ => "blob:0") 0 [seg0, seg1] ∧
    (generateStory (some "k") ⟨.ok [seg0, seg1]⟩ (fun _ => oracleOK) wInit
        ).1.generatedClips.length = [seg0, seg1].length ∧
    (generateStory (some "k") ⟨.ok [seg0, seg1]⟩ (fun _ => oracleOK) wInit).2
        = expectedEvents wInit.characters (fun _ => "blob:0") 0 [seg0, seg1] :=
  generateStory_all_success (some "k") ⟨.ok [seg0, seg1]⟩ (fun _ => oracleOK) wInit
    audio0 [seg0, seg1] (fun _ => "blob:0") rfl rfl (by simp)
    (fun i h =>
      match i, h with
      | 0, _ => rfl
      | 1, _ => rfl
      | i + 2, h => absurd h (by simp only [List.length_cons, List.length_nil]; omega))

/-- Claim C2: with an audio file present, (a) a Segmenter failure leaves the
clip list empty (zero clips generated), moves the pipeline to `error`
and stores a non-empty message; (b) if the first k Generator calls
succeed and the (k+1)-th (0-based index k) fails, `generateStory` keeps
exactly those k clips in order — no rollback, no reordering — moves to
`error`, and stores the failing call's message, which is non-empty. -/
theorem generateStory_failure_state
    (apiKey : Option String) (tOrc : TranscribeOracle) (gOrc : ℕ → GenOracle)
    (w : World) (audio : BFile)
    (haudio : w.audioFile = some audio) :
    (∀ e, tOrc.response = .error e →
      (generateStory apiKey tOrc gOrc w).1.generatedClips = [] ∧
      (generateStory apiKey tOrc gOrc w).1.status = .error ∧
      (generateStory apiKey tOrc gOrc w).1.errorMsg ≠ "") ∧
    (∀ segments urls k (hk : k < segments.length) m,
      tOrc.response = .ok segments →
      (∀ j (h : j < k),
        (generateVideoClip apiKey (segments.get ⟨j, Nat.lt_trans h hk⟩)
          (photoFor w.characters (segments.get ⟨j, Nat.lt_trans h hk⟩))
          (gOrc j)).result = .ok (urls j)) →
      (generateVideoClip apiKey (segments.get ⟨k, hk⟩)
          (photoFor w.characters (segments.get ⟨k, hk⟩)) (gOrc k)).result = .err m →
      (generateStory apiKey tOrc gOrc w).1.generatedClips
          = expectedClips urls 0 (segments.take k) ∧
      (generateStory apiKey tOrc gOrc w).1.generatedClips.length = k ∧
      (generateStory apiKey tOrc gOrc w).1.status = .error ∧
      (generateStory apiKey tOrc gOrc w).1.errorMsg = m ∧
      (generateStory apiKey tOrc gOrc w).1.errorMsg ≠ "") := by
  constructor
  · intro e hresp
    refine ⟨?_, ?_, ?_⟩ <;>
      simp [generateStory, haudio, transcribeAndSegmentAudio, hresp]
    exact append_ne_empty_left _ _ (by decide)
  · intro segments urls k hk m hresp hok herr
    have hok0 : ∀ j (h : j < k),
        ((fun i s photo => generateVideoClip apiKey s photo (gOrc i)) (0 + j)
          (segments.get ⟨j, Nat.lt_trans h hk⟩)
          (photoFor w.characters (segments.get ⟨j, Nat.lt_trans h hk⟩))).result
          = .ok (urls (0 + j)) := by
      intro j h
      simpa using hok j h
    have herr0 : ((fun i s photo => generateVideoClip apiKey s photo (gOrc i)) (0 + k)
        (segments.get ⟨k, hk⟩)
        (photoFor w.characters (segments.get ⟨k, hk⟩))).result = .err m := by
      simpa using herr
    obtain ⟨hc, he, hs⟩ := storyLoop_fails_at
      (fun i s photo => generateVideoClip apiKey s photo (gOrc i)) w.characters
      segments.length urls m segments k 0 []
      ⟨"Generating clips", segments.length, 0, "Starting video generation..."⟩ hk
      hok0 herr0
    have hm : m ≠ "" := generateVideoClip_err_ne_empty apiKey (segments.get ⟨k, hk⟩)
      (photoFor w.characters (segments.get ⟨k, hk⟩)) (gOrc k) m herr
    refine ⟨?_, ?_, ?_, ?_, ?_⟩ <;>
      simp [generateStory, haudio, transcribeAndSegmentAudio, hresp, hc, he, hs,
        expectedClips_length, Nat.min_eq_left (Nat.le_of_lt hk), hm]

/-- Claim C2 witness: concrete failing runs. A Segmenter network failure
yields zero clips, `error`, and a non-empty message; a two-segment run
whose second Generator call fails on download keeps exactly the first
clip, moves to `error`, and stores that download failure message. -/
theorem generateStory_failure_state_witness :
    ((generateStory (some "k") ⟨.error "network down"⟩ (fun _ => oracleOK) wInit
        ).1.generatedClips = [] ∧
      (generateStory (some "k") ⟨.error "network down"⟩ (fun _ => oracleOK) wInit
        ).1.status = .error ∧
      (generateStory (some "k") ⟨.error "network down"⟩ (fun _ => oracleOK) wInit
        ).1.errorMsg ≠ "") ∧
    ((generateStory (some "k") ⟨.ok [seg0, seg1]⟩
        (fun i => if i = 0 then oracleOK else oracleFail) wInit).1.generatedClips
        = expectedClips (fun _ => "blob:0") 0 ([seg0, seg1].take 1) ∧
      (generateStory (some "k") ⟨.ok [seg0, seg1]⟩
        (fun i => if i = 0 then oracleOK else oracleFail) wInit
        ).1.generatedClips.length = 1 ∧
      (generateStory (some "k") ⟨.ok [seg0, seg1]⟩
        (fun i => if i = 0 then oracleOK else oracleFail) wInit).1.status = .error ∧
      (generateStory (some "k") ⟨.ok [seg0, seg1]⟩
        (fun i => if i = 0 then oracleOK else oracleFail) wInit).1.errorMsg
        = "Downloading video failed: Failed to download video: Not Found" ∧
      (generateStory (some "k") ⟨.ok [seg0, seg1]⟩
        (fun i => if i = 0 then oracleOK else oracleFail) wInit).1.errorMsg ≠ "") := by
  constructor
  · exact (generateStory_failure_state (some "k") ⟨.error "network down"⟩
      (fun _ => oracleOK) wInit audio0 rfl).1 "network down" rfl
  · exact (generateStory_failure_state (some "k") ⟨.ok [seg0, seg1]⟩
      (fun i => if i = 0 then oracleOK else oracleFail) wInit audio0 rfl).2
      [seg0, seg1] (fun _ => "blob:0") 1 (by simp)
      "Downloading video failed: Failed to download video: Not Found" rfl
      (fun j h =>
        match j, h with
        | 0, _ => rfl
        | j + 1, h => absurd h (by omega))
      rfl

end StoryMode

